import Mathlib

/-!
Verification of the connection end point value type from
modules/platforms/cpp/odbc/include/ignite/odbc/end_point.h.

The C++ struct EndPoint holds a host string and a uint16_t port and
declares exactly two constructors. Machine 16-bit arithmetic is
modelled by natural numbers reduced modulo 2 ^ 16 = 65536 at the
constructor boundary, mirroring the implicit integral conversion to
uint16_t that C++ performs on the constructor argument.

The header declares no equality operator and no parser; the spec
assigns equality semantics and the text-to-endpoint parser to the
type's (out-of-scope) collaborators. Those two pieces are modelled
from the spec and marked as such in their doc comments.
-/

namespace ignite.odbc

/-- Connection end point structure (end_point.h, struct EndPoint):
a remote host string and a TCP port. The C++ field port has type
uint16_t; here it is a natural number, and both constructors below
only ever store values below 65536. -/
structure EndPoint where
  host : String
  port : Nat
  deriving DecidableEq

/-- Default constructor (end_point.h lines 36-41): value-initializes
host to the empty string and port to zero. -/
def EndPoint.default : EndPoint :=
  { host := "", port := 0 }

/-- Two-argument constructor (end_point.h lines 49-54). The port
parameter has C++ type uint16_t, so a caller-supplied integral value
is reduced modulo 65536 before being stored; the host string is
stored exactly as given. -/
def EndPoint.make (host : String) (port : Nat) : EndPoint :=
  { host := host, port := port % 65536 }

/-- The endpoints producible through the interface declared in
end_point.h: exactly the results of its two constructors. -/
inductive EndPoint.Constructed : EndPoint → Prop
  | default : EndPoint.Constructed EndPoint.default
  | make (host : String) (port : Nat) :
      EndPoint.Constructed (EndPoint.make host port)

/-- Modelled from the spec: end_point.h declares no equality operator;
the spec defines equality of endpoints as the conjunction of exact,
case-sensitive host-string equality and numeric port equality. -/
def EndPoint.beq (a b : EndPoint) : Bool :=
  a.host == b.host && a.port == b.port

/-- Modelled from the spec: the error signalled by the external
text-to-endpoint parser, absent from end_point.h; it carries the
offending text for diagnostics. -/
inductive ParseError where
  | malformed (text : String)
  | portOutOfRange (text : String)
  deriving DecidableEq

/-- Splits a character list at the last colon, returning the
characters before and after it, or none when no colon occurs. -/
def splitLastColon : List Char → Option (List Char × List Char)
  | [] => none
  | c :: cs =>
    match splitLastColon cs with
    | some (h, p) => some (c :: h, p)
    | none => if c = ':' then some ([], cs) else none

/-- Accumulates a decimal digit list into a natural number, failing
on any non-digit character. -/
def digitsToNatAux : List Char → Nat → Option Nat
  | [], acc => some acc
  | c :: cs, acc =>
    if c.isDigit then digitsToNatAux cs (acc * 10 + (c.toNat - 48))
    else none

/-- Reads a nonempty all-decimal-digit character list as a natural
number, and fails otherwise. -/
def digitsToNat : List Char → Option Nat
  | [] => none
  | c :: cs => digitsToNatAux (c :: cs) 0

/-- Modelled from the spec: the external text-to-endpoint parser,
absent from end_point.h. It accepts host:port, splitting on the last
colon; requires the port text to be a nonempty decimal number in the
unsigned 16-bit range; and on malformed input or an out-of-range port
signals a ParseError instead of constructing an endpoint. -/
def parseEndPoint (s : String) : Except ParseError EndPoint :=
  match splitLastColon s.data with
  | none => Except.error (ParseError.malformed s)
  | some (h, p) =>
    match digitsToNat p with
    | none => Except.error (ParseError.malformed s)
    | some n =>
      if n ≤ 65535 then Except.ok (EndPoint.make (String.mk h) n)
      else Except.error (ParseError.portOutOfRange s)

/-- Helper: the port stored by the two-argument constructor is always
below 65536. -/
theorem EndPoint.make_port_lt (h : String) (p : Nat) :
    (EndPoint.make h p).port < 65536 :=
  Nat.mod_lt p (by decide)

/-- Helper: every endpoint produced by a constructor of end_point.h
has its port below 65536. -/
theorem EndPoint.constructed_port_lt (e : EndPoint)
    (hc : EndPoint.Constructed e) : e.port < 65536 := by
  cases hc with
  | default => decide
  | make h p => exact EndPoint.make_port_lt h p

/-- Helper: rebuilding an endpoint from its own fields reproduces it,
provided the port is in the 16-bit range. -/
theorem EndPoint.make_eta (e : EndPoint) (hp : e.port < 65536) :
    EndPoint.make e.host e.port = e := by
  cases e with
  | mk h p =>
    simp only [EndPoint.make, EndPoint.mk.injEq, true_and]
    exact Nat.mod_eq_of_lt hp

/-- Helper: spec equality agrees with field-wise propositional
equality. -/
theorem EndPoint.beq_iff (a b : EndPoint) :
    EndPoint.beq a b = true ↔ a.host = b.host ∧ a.port = b.port := by
  simp [EndPoint.beq]

end ignite.odbc

namespace ignite.odbc

/-- C1: construction round-trip. For every host string h and every
port p in the unsigned 16-bit range, the endpoint built by the
two-argument constructor has host field h and port field p. -/
theorem c1_construction_roundtrip (h : String) (p : Nat)
    (hp : p ≤ 65535) :
    (EndPoint.make h p).host = h ∧ (EndPoint.make h p).port = p :=
  ⟨rfl, Nat.mod_eq_of_lt (by omega)⟩

/-- C1 witness: end-to-end scenario 1 at host 127.0.0.1, port
10800. -/
theorem c1_witness :
    (EndPoint.make "127.0.0.1" 10800).host = "127.0.0.1" ∧
      (EndPoint.make "127.0.0.1" 10800).port = 10800 :=
  c1_construction_roundtrip "127.0.0.1" 10800 (by decide)

/-- C2: default construction yields the sentinel: empty host, zero
port, and the default endpoint equals the explicitly constructed
sentinel under the spec's equality. -/
theorem c2_default_sentinel :
    EndPoint.default.host = "" ∧ EndPoint.default.port = 0 ∧
      EndPoint.beq EndPoint.default (EndPoint.make "" 0) = true :=
  ⟨rfl, rfl, by decide⟩

/-- C3: spec equality holds exactly when both fields agree (host
compared as strings, exactly and case-sensitively), and it is
reflexive, symmetric and transitive. -/
theorem c3_equality :
    (∀ a b : EndPoint,
        EndPoint.beq a b = true ↔ a.host = b.host ∧ a.port = b.port) ∧
      (∀ a : EndPoint, EndPoint.beq a a = true) ∧
      (∀ a b : EndPoint,
        EndPoint.beq a b = true → EndPoint.beq b a = true) ∧
      (∀ a b c : EndPoint,
        EndPoint.beq a b = true → EndPoint.beq b c = true →
          EndPoint.beq a c = true) := by
  refine ⟨EndPoint.beq_iff, ?_, ?_, ?_⟩
  · intro a
    exact (EndPoint.beq_iff a a).mpr ⟨rfl, rfl⟩
  · intro a b hab
    obtain ⟨h1, h2⟩ := (EndPoint.beq_iff a b).mp hab
    exact (EndPoint.beq_iff b a).mpr ⟨h1.symm, h2.symm⟩
  · intro a b c hab hbc
    obtain ⟨h1, h2⟩ := (EndPoint.beq_iff a b).mp hab
    obtain ⟨h3, h4⟩ := (EndPoint.beq_iff b c).mp hbc
    exact (EndPoint.beq_iff a c).mpr ⟨h1.trans h3, h2.trans h4⟩

/-- C3 witness: transitivity of the spec equality applied at three
concrete equal endpoints. -/
theorem c3_witness :
    EndPoint.beq (EndPoint.make "a" 1) (EndPoint.make "a" 1) = true :=
  c3_equality.2.2.2 (EndPoint.make "a" 1) (EndPoint.make "a" 1)
    (EndPoint.make "a" 1) (by decide) (by decide)

/-- C4: construction never fails. For every host string (the empty
string included) and every value in the unsigned 16-bit range, the
two-argument constructor yields a definite endpoint carrying exactly
the given fields; the constructor has no error channel. -/
theorem c4_no_failure (h : String) (p : Nat) (hp : p ≤ 65535) :
    ∃ e : EndPoint,
      EndPoint.make h p = e ∧ e.host = h ∧ e.port = p :=
  ⟨EndPoint.make h p, rfl, rfl, Nat.mod_eq_of_lt (by omega)⟩

/-- C4 witness: construction succeeds at the empty host and port 0. -/
theorem c4_witness :
    ∃ e : EndPoint,
      EndPoint.make "" 0 = e ∧ e.host = "" ∧ e.port = 0 :=
  c4_no_failure "" 0 (by decide)

/-- C5: immutability. The interface of end_point.h consists of the
two constructors and the two readable fields, with no mutating
operation; accordingly every constructed endpoint is fully determined
by its fields, and freshly constructing from its own current fields
reproduces the very same value. -/
theorem c5_immutable (e : EndPoint) (hc : EndPoint.Constructed e) :
    EndPoint.make e.host e.port = e :=
  EndPoint.make_eta e (EndPoint.constructed_port_lt e hc)

/-- C5 witness: the default-constructed endpoint is reproduced from
its own fields. -/
theorem c5_witness :
    EndPoint.make EndPoint.default.host EndPoint.default.port =
      EndPoint.default :=
  c5_immutable EndPoint.default EndPoint.Constructed.default

/-- C6: the host is stored verbatim. For every input string the
stored host field is exactly the string given to the constructor: no
normalization, case-folding or validation is applied. -/
theorem c6_host_verbatim (h : String) (p : Nat) :
    (EndPoint.make h p).host = h :=
  rfl

/-- C7: port range invariant. Every endpoint produced by either
constructor of end_point.h stores a port in the unsigned 16-bit
range 0 to 65535 inclusive. -/
theorem c7_port_range (e : EndPoint) (hc : EndPoint.Constructed e) :
    e.port ≤ 65535 :=
  Nat.le_of_lt_succ (EndPoint.constructed_port_lt e hc)

/-- C7 witness: the port range invariant at a concretely constructed
endpoint whose argument exceeds the range. -/
theorem c7_witness : (EndPoint.make "b" 70000).port ≤ 65535 :=
  c7_port_range (EndPoint.make "b" 70000)
    (EndPoint.Constructed.make "b" 70000)

/-- C8: copies are value-independent. Constructing a second endpoint
from the fields of a constructed endpoint yields a value equal to it
under the spec's equality, independently of object identity. -/
theorem c8_copy_equal (e : EndPoint) (hc : EndPoint.Constructed e) :
    EndPoint.beq (EndPoint.make e.host e.port) e = true := by
  rw [EndPoint.make_eta e (EndPoint.constructed_port_lt e hc)]
  exact (EndPoint.beq_iff e e).mpr ⟨rfl, rfl⟩

/-- C8 witness: a copy built from the fields of a concrete endpoint
equals it. -/
theorem c8_witness :
    EndPoint.beq
      (EndPoint.make (EndPoint.make "c" 3).host
        (EndPoint.make "c" 3).port)
      (EndPoint.make "c" 3) = true :=
  c8_copy_equal (EndPoint.make "c" 3)
    (EndPoint.Constructed.make "c" 3)

/-- C9: the companion parser maps example.com:33000 to the endpoint
(example.com, 33000); it rejects example.com:99999, whose port is
outside the 16-bit range, with a ParseError; and whenever it succeeds
the resulting endpoint's port is within the 16-bit range. -/
theorem c9_parse_contract :
    parseEndPoint "example.com:33000" =
        Except.ok (EndPoint.make "example.com" 33000) ∧
      parseEndPoint "example.com:99999" =
        Except.error (ParseError.portOutOfRange "example.com:99999") ∧
      ∀ (s : String) (e : EndPoint),
        parseEndPoint s = Except.ok e → e.port ≤ 65535 := by
  refine ⟨rfl, rfl, ?_⟩
  intro s e hok
  unfold parseEndPoint at hok
  cases h1 : splitLastColon s.data with
  | none => rw [h1] at hok; exact absurd hok (by simp)
  | some hp =>
    rw [h1] at hok
    obtain ⟨hchars, pchars⟩ := hp
    dsimp only at hok
    cases h2 : digitsToNat pchars with
    | none => rw [h2] at hok; exact absurd hok (by simp)
    | some n =>
      rw [h2] at hok
      dsimp only at hok
      by_cases h3 : n ≤ 65535
      · rw [if_pos h3] at hok
        obtain rfl := (Except.ok.injEq _ _).mp hok
        exact Nat.le_of_lt_succ (EndPoint.make_port_lt _ n)
      · rw [if_neg h3] at hok
        exact absurd hok (by simp)

/-- C9 witness: the range guarantee of the parser applied at a
concrete successfully parsed input. -/
theorem c9_witness :
    parseEndPoint "h:80" = Except.ok (EndPoint.make "h" 80) ∧
      (EndPoint.make "h" 80).port ≤ 65535 :=
  ⟨rfl, c9_parse_contract.2.2 "h:80" (EndPoint.make "h" 80) rfl⟩

/-- C10: at the constructor boundary a port argument larger than
65535 is not rejected: the uint16_t parameter reduces it modulo
65536, so the stored port equals the argument modulo 65536 and lies
back in the 16-bit range. -/
theorem c10_port_wraps (h : String) (p : Nat) (_hp : 65535 < p) :
    (EndPoint.make h p).port = p % 65536 ∧
      (EndPoint.make h p).port ≤ 65535 :=
  ⟨rfl, Nat.le_of_lt_succ (EndPoint.make_port_lt h p)⟩

/-- C10 witness: the argument 70000 wraps to 70000 mod 65536 =
4464. -/
theorem c10_witness :
    (EndPoint.make "x" 70000).port = 70000 % 65536 ∧
      (EndPoint.make "x" 70000).port ≤ 65535 :=
  c10_port_wraps "x" 70000 (by decide)

end ignite.odbc
